import Mathlib

/-!
Verification of the unit-converter service core (app/converters.py and the
currency endpoint of app/main.py), shallowly embedded over the rationals.
Python floats are modelled as rationals; the Python built-in round
(round-half-to-even) is modelled explicitly; Python exceptions become an
explicit error type; the module-level mutable currency cache becomes
explicit state passing; the external HTTP rate provider becomes an oracle
function from the base currency to a provider outcome.
-/

namespace UnitConverter

/-- Python built-in rounding to an integer: round-half-to-even
(bankers rounding), on an exact rational. -/
def roundHalfToEven (x : ℚ) : ℤ :=
  if x - ⌊x⌋ < 1/2 then ⌊x⌋
  else if 1/2 < x - ⌊x⌋ then ⌊x⌋ + 1
  else if ⌊x⌋ % 2 = 0 then ⌊x⌋ else ⌊x⌋ + 1

/-- Python round(x, ndigits) for nonnegative ndigits, on an exact rational. -/
def pyRound (x : ℚ) (ndigits : ℕ) : ℚ :=
  (roundHalfToEven (x * 10 ^ ndigits) : ℚ) / 10 ^ ndigits

/-- Python exceptions relevant to the converters module: ValueError with its
message, and the generic Exception with its message. -/
inductive PyError where
  | valueError (msg : String)
  | exception (msg : String)

/-- str(e) of a modelled Python exception: its message. -/
def PyError.str : PyError → String
  | .valueError m => m
  | .exception m => m

/-- Whether a failure is the generic Exception kind (as opposed to ValueError). -/
def PyError.isGenericException : PyError → Bool
  | .exception _ => true
  | .valueError _ => false

/-- Wrap a string in single quote characters, as the f-strings of
converters.py do around unit names. -/
def quoteStr (s : String) : String := "\x27" ++ s ++ "\x27"

/-- Python str.lower(), character by character (the unit and currency strings
of this service are ASCII, where this agrees with Python). -/
def pyLower (s : String) : String := ⟨s.data.map Char.toLower⟩

/-- Python str.upper(), character by character (ASCII). -/
def pyUpper (s : String) : String := ⟨s.data.map Char.toUpper⟩

/-- LENGTH_FACTORS of converters.py, in declaration order; float literals are
read as exact decimals. -/
def LENGTH_FACTORS : List (String × ℚ) :=
  [("meter", 1),
   ("kilometer", 1000),
   ("centimeter", 1/100),
   ("millimeter", 1/1000),
   ("mile", 160934/100),
   ("yard", 9144/10000),
   ("foot", 3048/10000),
   ("inch", 254/10000)]

/-- WEIGHT_FACTORS of converters.py, in declaration order. -/
def WEIGHT_FACTORS : List (String × ℚ) :=
  [("kilogram", 1),
   ("gram", 1/1000),
   ("milligram", 1/1000000),
   ("pound", 453592/1000000),
   ("ounce", 283495/10000000),
   ("ton", 1000)]

/-- The joined supported-units list for length errors:
", ".join(LENGTH_FACTORS.keys()), dict iteration = declaration order. -/
def lengthSupported : String :=
  String.intercalate ", " (LENGTH_FACTORS.map Prod.fst)

/-- The joined supported-units list for weight errors. -/
def weightSupported : String :=
  String.intercalate ", " (WEIGHT_FACTORS.map Prod.fst)

/-- The f-string of the invalid-source-unit ValueError. -/
def invalidSourceMsg (u : String) (supported : String) : String :=
  "Invalid source unit " ++ quoteStr u ++ ". Supported: " ++ supported

/-- The f-string of the invalid-target-unit ValueError. -/
def invalidTargetMsg (u : String) (supported : String) : String :=
  "Invalid target unit " ++ quoteStr u ++ ". Supported: " ++ supported

/-- Body of convert_length after the two .lower() normalizations:
validate source, validate target, then value * factor[from] / factor[to]
rounded to 6 decimals. -/
def convert_lengthNorm (value : ℚ) (from_unit to_unit : String) : Except PyError ℚ :=
  match LENGTH_FACTORS.lookup from_unit with
  | none => .error (.valueError (invalidSourceMsg from_unit lengthSupported))
  | some fromFactor =>
    match LENGTH_FACTORS.lookup to_unit with
    | none => .error (.valueError (invalidTargetMsg to_unit lengthSupported))
    | some toFactor => .ok (pyRound (value * fromFactor / toFactor) 6)

/-- convert_length of converters.py: lower-case both units, then convert. -/
def convert_length (value : ℚ) (from_unit to_unit : String) : Except PyError ℚ :=
  convert_lengthNorm value (pyLower from_unit) (pyLower to_unit)

/-- Body of convert_weight after the two .lower() normalizations. -/
def convert_weightNorm (value : ℚ) (from_unit to_unit : String) : Except PyError ℚ :=
  match WEIGHT_FACTORS.lookup from_unit with
  | none => .error (.valueError (invalidSourceMsg from_unit weightSupported))
  | some fromFactor =>
    match WEIGHT_FACTORS.lookup to_unit with
    | none => .error (.valueError (invalidTargetMsg to_unit weightSupported))
    | some toFactor => .ok (pyRound (value * fromFactor / toFactor) 6)

/-- convert_weight of converters.py: lower-case both units, then convert. -/
def convert_weight (value : ℚ) (from_unit to_unit : String) : Except PyError ℚ :=
  convert_weightNorm value (pyLower from_unit) (pyLower to_unit)

/-- valid_units of convert_temperature. In Python it is a set literal; we keep
the literal order for the joined error message (set iteration order is not
specified by Python, so only membership, not the message order, is contractual). -/
def valid_units : List String := ["celsius", "fahrenheit", "kelvin"]

/-- ", ".join(valid_units) in the modelled iteration order. -/
def tempSupported : String := String.intercalate ", " valid_units

/-- Body of convert_temperature after the two .lower() normalizations:
validate both units, short-circuit same-unit to round(value, 2), otherwise
apply the pairwise formulas and round to 2 decimals. 273.15 is exact here. -/
def convert_temperatureNorm (value : ℚ) (from_unit to_unit : String) : Except PyError ℚ :=
  if valid_units.contains from_unit = false then
    .error (.valueError (invalidSourceMsg from_unit tempSupported))
  else if valid_units.contains to_unit = false then
    .error (.valueError (invalidTargetMsg to_unit tempSupported))
  else if from_unit = to_unit then
    .ok (pyRound value 2)
  else if from_unit = "celsius" then
    if to_unit = "fahrenheit" then .ok (pyRound (value * 9 / 5 + 32) 2)
    else .ok (pyRound (value + 27315/100) 2)
  else if from_unit = "fahrenheit" then
    if to_unit = "celsius" then .ok (pyRound ((value - 32) * 5 / 9) 2)
    else .ok (pyRound ((value - 32) * 5 / 9 + 27315/100) 2)
  else
    if to_unit = "celsius" then .ok (pyRound (value - 27315/100) 2)
    else .ok (pyRound ((value - 27315/100) * 9 / 5 + 32) 2)

/-- convert_temperature of converters.py: lower-case both units, then convert. -/
def convert_temperature (value : ℚ) (from_unit to_unit : String) : Except PyError ℚ :=
  convert_temperatureNorm value (pyLower from_unit) (pyLower to_unit)

/-- settings.CURRENCY_API_TIMEOUT default. -/
def CURRENCY_API_TIMEOUT : ℕ := 5

/-- The parsed JSON body of a provider response, as converters.py reads it:
only the optional rates mapping matters (absent field modelled as none). -/
structure ApiData where
  rates : Option (List (String × ℚ))

/-- Outcome of one call to requests.get + raise_for_status + json():
a timeout, a transport or non-2xx failure (requests.exceptions.RequestException,
of which HTTPError from raise_for_status is a subclass), or a parsed body. -/
inductive ProviderOutcome where
  | timeout
  | requestError (msg : String)
  | response (data : ApiData)

/-- The mutable process state touched by get_currency_rate: the module-level
_CURRENCY_CACHE dict (as an insertion-ordered association list) and a counter
of provider calls issued (for call-count properties; the code has no such
counter, incrementing it models executing the requests.get line). -/
structure CurrencyState where
  cache : List (String × ℚ)
  providerCalls : ℕ

/-- Body of get_currency_rate after the two .upper() normalizations.
Cache key is from + "_" + to. On a hit, return round(value*rate, 2) with no
provider call. On a miss, consult the provider once; the raised ValueError
(unknown target) and the format Exception are both caught by the trailing
except-Exception clause of the source and re-raised as generic Exception
with a "Currency conversion failed: " prefix; the cache is written only on
the success path, by dict assignment of a fresh key (append). -/
def get_currency_rateNorm (provider : String → ProviderOutcome) (value : ℚ)
    (from_currency to_currency : String) (st : CurrencyState) :
    Except PyError ℚ × CurrencyState :=
  match st.cache.lookup (from_currency ++ "_" ++ to_currency) with
  | some r => (.ok (pyRound (value * r) 2), st)
  | none =>
    match provider from_currency with
    | .timeout =>
        (.error (.exception ("Currency API timeout after "
            ++ toString CURRENCY_API_TIMEOUT ++ "s")),
         ⟨st.cache, st.providerCalls + 1⟩)
    | .requestError m =>
        (.error (.exception ("Currency API request failed: " ++ m)),
         ⟨st.cache, st.providerCalls + 1⟩)
    | .response data =>
      match data.rates with
      | none =>
          (.error (.exception "Currency conversion failed: Invalid API response format"),
           ⟨st.cache, st.providerCalls + 1⟩)
      | some rates =>
        match rates.lookup to_currency with
        | none =>
            (.error (.exception ("Currency conversion failed: Currency "
                ++ quoteStr to_currency ++ " not found in exchange rates")),
             ⟨st.cache, st.providerCalls + 1⟩)
        | some rate =>
            (.ok (pyRound (value * rate) 2),
             ⟨st.cache ++ [(from_currency ++ "_" ++ to_currency, rate)],
              st.providerCalls + 1⟩)

/-- get_currency_rate of converters.py: upper-case both codes, then resolve. -/
def get_currency_rate (provider : String → ProviderOutcome) (value : ℚ)
    (from_currency to_currency : String) (st : CurrencyState) :
    Except PyError ℚ × CurrencyState :=
  get_currency_rateNorm provider value (pyUpper from_currency) (pyUpper to_currency) st

/-- A provider outcome that the source treats as a failure for a given
(upper-cased) target code: timeout, transport failure, missing rates field,
or target absent from rates. -/
def isBadOutcome (o : ProviderOutcome) (target : String) : Bool :=
  match o with
  | .timeout => true
  | .requestError _ => true
  | .response data =>
    match data.rates with
    | none => true
    | some rates => (rates.lookup target).isNone

/-- What the HTTP layer returns for /convert/currency: the ConversionResponse
payload on success, or HTTPException(status_code=500, detail=str(e)) — the
endpoint of main.py catches every Exception with status 500. -/
inductive EndpointResult where
  | response (original_value converted_value : ℚ) (from_unit to_unit : String)
  | httpError (status_code : ℕ) (detail : String)

/-- convert_currency_endpoint of main.py, with observability calls elided. -/
def convert_currency_endpoint (provider : String → ProviderOutcome) (value : ℚ)
    (from_unit to_unit : String) (st : CurrencyState) :
    EndpointResult × CurrencyState :=
  match get_currency_rate provider value from_unit to_unit st with
  | (.ok r, st2) => (.response value r from_unit to_unit, st2)
  | (.error e, st2) => (.httpError 500 e.str, st2)

/-- One call to get_currency_rate, for stating multi-call invariants. -/
structure CallSpec where
  provider : String → ProviderOutcome
  value : ℚ
  from_currency : String
  to_currency : String

/-- Run a sequence of get_currency_rate calls, threading the state. -/
def runCalls (calls : List CallSpec) (st : CurrencyState) : CurrencyState :=
  calls.foldl
    (fun s c => (get_currency_rate c.provider c.value c.from_currency c.to_currency s).2) st

/-- Concrete provider oracle: every base resolves to rates {"C": 3}. -/
def providerAB : String → ProviderOutcome :=
  fun _ => .response ⟨some [("C", 3)]⟩

/-- Concrete provider oracle: every base resolves to rates {"EUR": 2}. -/
def providerEUR : String → ProviderOutcome :=
  fun _ => .response ⟨some [("EUR", 2)]⟩

/-- Concrete provider oracle: every call returns a body with no rates field. -/
def providerNoRates : String → ProviderOutcome :=
  fun _ => .response ⟨none⟩

/-- Concrete provider oracle: every call times out. -/
def providerTimeoutOracle : String → ProviderOutcome :=
  fun _ => .timeout

/-- The cache state at process start: empty, no calls issued. -/
def emptyState : CurrencyState := ⟨[], 0⟩

/-- A concrete state where the pair USD/EUR is already cached at rate 2. -/
def stUsdEur : CurrencyState := ⟨[("USD_EUR", 2)], 1⟩

/-- A concrete call resolving usd to eur against the timing-out provider. -/
def callUsdEur : CallSpec := ⟨providerTimeoutOracle, 7, "usd", "eur"⟩

end UnitConverter

namespace UnitConverter

/-- Rounding an exact integer changes nothing: the fractional part is zero. -/
lemma roundHalfToEven_intCast (n : ℤ) : roundHalfToEven (n : ℚ) = n := by
  unfold roundHalfToEven
  rw [Int.floor_intCast]
  norm_num

/-- Python round is the identity on integer-valued rationals. -/
lemma pyRound_intCast (n : ℤ) (d : ℕ) : pyRound (n : ℚ) d = n := by
  unfold pyRound
  have h : (n : ℚ) * 10 ^ d = ((n * 10 ^ d : ℤ) : ℚ) := by push_cast; ring
  rw [h, roundHalfToEven_intCast]
  push_cast
  have h10 : (10 : ℚ) ^ d ≠ 0 := by positivity
  field_simp

/-- Evaluating pyRound on an argument known to be an integer. -/
lemma pyRound_eq_int (x : ℚ) (n : ℤ) (h : x = (n : ℚ)) (d : ℕ) : pyRound x d = (n : ℚ) := by
  rw [h, pyRound_intCast]

/-- Multiplying and dividing by the same nonzero factor commutes with rounding. -/
lemma pyRound_mul_div_self (v f : ℚ) (hf : f ≠ 0) (d : ℕ) :
    pyRound (v * f / f) d = pyRound v d := by
  rw [mul_div_assoc, div_self hf, mul_one]

/-- Association-list lookup is unaffected by appending entries on the right
when the key is already found on the left. -/
lemma lookup_append_left {l1 l2 : List (String × ℚ)} {k : String} {r : ℚ}
    (h : l1.lookup k = some r) : (l1 ++ l2).lookup k = some r := by
  induction l1 with
  | nil => simp [List.lookup] at h
  | cons p l ih =>
    obtain ⟨a, b⟩ := p
    rw [List.cons_append]
    simp only [List.lookup] at h ⊢
    cases hk : (k == a)
    · rw [hk] at h
      simpa using ih (by simpa using h)
    · rw [hk] at h
      simpa using h

/-- Appending a fresh binding for an absent key makes it the lookup result. -/
lemma lookup_append_self {l : List (String × ℚ)} {k : String} {v : ℚ}
    (h : l.lookup k = none) : (l ++ [(k, v)]).lookup k = some v := by
  induction l with
  | nil => simp [List.lookup]
  | cons p l ih =>
    obtain ⟨a, b⟩ := p
    rw [List.cons_append]
    simp only [List.lookup] at h ⊢
    cases hk : (k == a)
    · rw [hk] at h
      simpa using ih (by simpa using h)
    · rw [hk] at h
      simp at h

/-- Exhaustive case analysis of get_currency_rate: a cache hit returns the
rounded product and leaves the state untouched; a miss increments the call
counter and either fails with a generic Exception leaving the cache unchanged,
or succeeds on a provider response carrying the target rate and appends
exactly the one new binding. -/
lemma get_shape (p : String → ProviderOutcome) (v : ℚ) (fc tc : String)
    (st : CurrencyState) :
    (∃ r, st.cache.lookup (pyUpper fc ++ "_" ++ pyUpper tc) = some r ∧
      get_currency_rate p v fc tc st = (.ok (pyRound (v * r) 2), st))
    ∨ (st.cache.lookup (pyUpper fc ++ "_" ++ pyUpper tc) = none ∧
        ((∃ m, get_currency_rate p v fc tc st
            = (.error (.exception m), ⟨st.cache, st.providerCalls + 1⟩))
         ∨ (∃ data rates rate, p (pyUpper fc) = .response data ∧ data.rates = some rates
             ∧ rates.lookup (pyUpper tc) = some rate
             ∧ get_currency_rate p v fc tc st
                = (.ok (pyRound (v * rate) 2),
                   ⟨st.cache ++ [(pyUpper fc ++ "_" ++ pyUpper tc, rate)],
                    st.providerCalls + 1⟩)))) := by
  unfold get_currency_rate get_currency_rateNorm
  split
  next r heq => exact Or.inl ⟨r, heq, rfl⟩
  next heq =>
    refine Or.inr ⟨heq, ?_⟩
    split
    · exact Or.inl ⟨_, rfl⟩
    · exact Or.inl ⟨_, rfl⟩
    next data hp =>
      split
      · exact Or.inl ⟨_, rfl⟩
      next rates hr =>
        split
        · exact Or.inl ⟨_, rfl⟩
        next rate hlk => exact Or.inr ⟨data, rates, rate, hp, hr, hlk, rfl⟩

/-- A cache hit evaluates to the rounded product and leaves the state as is. -/
lemma hit_eval (p : String → ProviderOutcome) (v : ℚ) (fc tc : String)
    (st : CurrencyState) (r : ℚ)
    (h : st.cache.lookup (pyUpper fc ++ "_" ++ pyUpper tc) = some r) :
    get_currency_rate p v fc tc st = (.ok (pyRound (v * r) 2), st) := by
  unfold get_currency_rate get_currency_rateNorm
  rw [h]

/-- One call to get_currency_rate never disturbs an existing cache binding. -/
lemma step_preserves (p : String → ProviderOutcome) (v : ℚ) (fc tc : String)
    (st : CurrencyState) (k : String) (r : ℚ) (h : st.cache.lookup k = some r) :
    ((get_currency_rate p v fc tc st).2).cache.lookup k = some r := by
  rcases get_shape p v fc tc st with ⟨r2, _, heq⟩ | ⟨_, ⟨m, heq⟩ | ⟨d, rs, rt, _, _, _, heq⟩⟩ <;>
    rw [heq] <;> [exact h; exact h; exact lookup_append_left h]

/-- After a call that returned a value, the resolved pair is in the cache. -/
lemma ok_implies_cached (p : String → ProviderOutcome) (v : ℚ) (fc tc : String)
    (st : CurrencyState) (q : ℚ)
    (h : (get_currency_rate p v fc tc st).1 = .ok q) :
    ∃ r2, ((get_currency_rate p v fc tc st).2).cache.lookup
        (pyUpper fc ++ "_" ++ pyUpper tc) = some r2 := by
  rcases get_shape p v fc tc st with ⟨r2, hl, heq⟩ | ⟨hl, ⟨m, heq⟩ | ⟨d, rs, rt, _, _, _, heq⟩⟩
  · rw [heq]; exact ⟨r2, hl⟩
  · rw [heq] at h; simp at h
  · rw [heq]; exact ⟨rt, lookup_append_self hl⟩

/-- Every failure of get_currency_rate carries the generic Exception kind. -/
lemma error_is_generic (p : String → ProviderOutcome) (v : ℚ) (fc tc : String)
    (st : CurrencyState) (e : PyError)
    (h : (get_currency_rate p v fc tc st).1 = .error e) :
    ∃ m, e = PyError.exception m := by
  rcases get_shape p v fc tc st with ⟨r2, hl, heq⟩ | ⟨hl, ⟨m, heq⟩ | ⟨d, rs, rt, _, _, _, heq⟩⟩
  · rw [heq] at h; simp at h
  · rw [heq] at h; exact ⟨m, by simpa using h.symm⟩
  · rw [heq] at h; simp at h

/-- A sequence of calls never disturbs an existing cache binding. -/
lemma runCalls_preserves (k : String) (r : ℚ) :
    ∀ (calls : List CallSpec) (st : CurrencyState), st.cache.lookup k = some r →
      (runCalls calls st).cache.lookup k = some r := by
  intro calls
  induction calls with
  | nil => intro st h; exact h
  | cons c cs ih =>
    intro st h
    exact ih _ (step_preserves c.provider c.value c.from_currency c.to_currency st k r h)

/-- C1: for every ordered currency pair whose key is already in the rate
cache, get_currency_rate returns round(value * cached_rate, 2) immediately
with the state (cache and provider-call count) unchanged, so no provider call
is issued; and after any resolution that returned a value, a second
resolution of the same ordered pair issues no further provider call. -/
theorem C1_cache_hit_no_second_call :
    ∀ (p p2 : String → ProviderOutcome) (v v2 : ℚ) (fc tc : String)
      (st : CurrencyState) (r : ℚ),
    (st.cache.lookup (pyUpper fc ++ "_" ++ pyUpper tc) = some r →
      get_currency_rate p v fc tc st = (.ok (pyRound (v * r) 2), st))
    ∧ (∀ q, (get_currency_rate p v fc tc st).1 = .ok q →
        (get_currency_rate p2 v2 fc tc (get_currency_rate p v fc tc st).2).2.providerCalls
          = (get_currency_rate p v fc tc st).2.providerCalls) := by
  intro p p2 v v2 fc tc st r
  refine ⟨hit_eval p v fc tc st r, ?_⟩
  intro q hq
  obtain ⟨r2, hr2⟩ := ok_implies_cached p v fc tc st q hq
  rw [hit_eval p2 v2 fc tc _ r2 hr2]

/-- Witness for C1 at a concrete cached state: the pair usd/eur cached at
rate 2 resolves to round(7*2, 2) without touching the state, and a repeat
resolution leaves the provider-call count unchanged. -/
theorem C1_witness :
    get_currency_rate providerTimeoutOracle 7 "usd" "eur" stUsdEur
      = (.ok (pyRound (7 * 2) 2), stUsdEur)
    ∧ (get_currency_rate providerTimeoutOracle 7 "usd" "eur"
          (get_currency_rate providerTimeoutOracle 7 "usd" "eur" stUsdEur).2).2.providerCalls
        = (get_currency_rate providerTimeoutOracle 7 "usd" "eur" stUsdEur).2.providerCalls :=
  ⟨(C1_cache_hit_no_second_call providerTimeoutOracle providerTimeoutOracle 7 7
      "usd" "eur" stUsdEur 2).1 rfl,
   (C1_cache_hit_no_second_call providerTimeoutOracle providerTimeoutOracle 7 7
      "usd" "eur" stUsdEur 2).2 (pyRound (7 * 2) 2) rfl⟩

/-- C2: on a cache miss, every provider outcome other than a successful
response whose rates carry the target code (timeout, transport failure,
missing rates field, absent target) makes get_currency_rate fail, and the
cache is left exactly as it was: no partial cache write occurs. -/
theorem C2_failure_no_cache_write :
    ∀ (p : String → ProviderOutcome) (v : ℚ) (fc tc : String) (st : CurrencyState),
    st.cache.lookup (pyUpper fc ++ "_" ++ pyUpper tc) = none →
    isBadOutcome (p (pyUpper fc)) (pyUpper tc) = true →
    (∃ e, (get_currency_rate p v fc tc st).1 = Except.error e)
      ∧ (get_currency_rate p v fc tc st).2.cache = st.cache := by
  intro p v fc tc st hmiss hbad
  rcases get_shape p v fc tc st with
    ⟨r2, hl, heq⟩ | ⟨hl, ⟨m, heq⟩ | ⟨d, rs, rt, hp, hr, hlk, heq⟩⟩
  · rw [hmiss] at hl; exact absurd hl (by simp)
  · rw [heq]; exact ⟨⟨_, rfl⟩, rfl⟩
  · rw [hp] at hbad
    simp only [isBadOutcome, hr, hlk, Option.isNone] at hbad
    exact Bool.noConfusion hbad

/-- Witness for C2 at a concrete input: a timeout on an uncached pair yields
a failure and the (empty) cache stays empty. -/
theorem C2_witness :
    (∃ e, (get_currency_rate providerTimeoutOracle 5 "usd" "eur" emptyState).1
        = Except.error e)
    ∧ (get_currency_rate providerTimeoutOracle 5 "usd" "eur" emptyState).2.cache
        = emptyState.cache :=
  C2_failure_no_cache_write providerTimeoutOracle 5 "usd" "eur" emptyState rfl rfl

/-- C3 counterexample: the claim that the unknown-target failure is a
distinct error kind which the HTTP layer maps to a client-error response is
false at concrete inputs. A response whose rates lack the target "XXX" and a
response with no rates field both surface as the one generic Exception
constructor, differing only in the message string, and the currency endpoint
answers the unknown-target failure with status 500, a server error. -/
theorem C3_counterexample_no_distinct_kinds :
    (get_currency_rate providerEUR 1 "USD" "XXX" emptyState).1
      = .error (.exception ("Currency conversion failed: Currency "
          ++ quoteStr "XXX" ++ " not found in exchange rates"))
    ∧ (get_currency_rate providerNoRates 1 "USD" "EUR" emptyState).1
      = .error (.exception "Currency conversion failed: Invalid API response format")
    ∧ (convert_currency_endpoint providerEUR 1 "USD" "XXX" emptyState).1
      = .httpError 500 ("Currency conversion failed: Currency "
          ++ quoteStr "XXX" ++ " not found in exchange rates") :=
  ⟨rfl, rfl, rfl⟩

/-- C3 amended: currency failures are NOT distinguishable kinds. Every
failure of get_currency_rate — unknown target currency included — is the
generic Exception kind, distinguishable only by its message string, and the
HTTP layer maps every currency failure to a 500 server-error response whose
detail is that message. -/
theorem C3_amended_generic_exception_500 :
    ∀ (p : String → ProviderOutcome) (v : ℚ) (fc tc : String) (st : CurrencyState)
      (e : PyError),
    (get_currency_rate p v fc tc st).1 = .error e →
    (∃ m, e = PyError.exception m)
      ∧ (convert_currency_endpoint p v fc tc st).1 = .httpError 500 e.str := by
  intro p v fc tc st e h
  refine ⟨error_is_generic p v fc tc st e h, ?_⟩
  unfold convert_currency_endpoint
  have h2 : get_currency_rate p v fc tc st
      = (Except.error e, (get_currency_rate p v fc tc st).2) := by
    rw [← h]
  rw [h2]

/-- Witness for the amended C3 at a concrete input: the timeout failure is
the generic Exception kind and the endpoint returns 500 with its message. -/
theorem C3_witness :
    (∃ m, PyError.exception "Currency API timeout after 5s" = PyError.exception m)
    ∧ (convert_currency_endpoint providerTimeoutOracle 5 "usd" "eur" emptyState).1
        = .httpError 500 (PyError.exception "Currency API timeout after 5s").str :=
  C3_amended_generic_exception_500 providerTimeoutOracle 5 "usd" "eur" emptyState
    (.exception "Currency API timeout after 5s") rfl

/-- C4: once a key is present in the rate cache, no sequence of later
get_currency_rate calls — with arbitrary values, pairs and provider
behaviours, so in particular with changed upstream rates — modifies that
binding, and a subsequent conversion for that pair returns
round(value * frozen_rate, 2) computed from the original frozen rate. -/
theorem C4_frozen_rate :
    ∀ (st : CurrencyState) (k : String) (r : ℚ) (calls : List CallSpec),
    st.cache.lookup k = some r →
    (runCalls calls st).cache.lookup k = some r
    ∧ (∀ c : CallSpec, pyUpper c.from_currency ++ "_" ++ pyUpper c.to_currency = k →
        (get_currency_rate c.provider c.value c.from_currency c.to_currency
            (runCalls calls st)).1 = .ok (pyRound (c.value * r) 2)) := by
  intro st k r calls h
  have hpres := runCalls_preserves k r calls st h
  refine ⟨hpres, ?_⟩
  intro c hk
  rw [hit_eval c.provider c.value c.from_currency c.to_currency _ r (by rw [hk]; exact hpres)]

/-- Witness for C4 at a concrete input: with USD/EUR frozen at rate 2, after
one interleaved call the binding is intact and a resolution of usd/eur still
uses rate 2. -/
theorem C4_witness :
    (runCalls [callUsdEur] stUsdEur).cache.lookup "USD_EUR" = some 2
    ∧ (get_currency_rate providerTimeoutOracle 7 "usd" "eur"
        (runCalls [callUsdEur] stUsdEur)).1 = .ok (pyRound (7 * 2) 2) :=
  ⟨(C4_frozen_rate stUsdEur "USD_EUR" 2 [callUsdEur] rfl).1,
   (C4_frozen_rate stUsdEur "USD_EUR" 2 [callUsdEur] rfl).2 callUsdEur rfl⟩

/-- C5: for every value v and every key u of the length factor table,
convert_length v u u = round(v, 6): same-unit conversion is the identity up
to 6-decimal rounding. -/
theorem C5_same_unit_identity :
    ∀ (v : ℚ) (u : String), u ∈ LENGTH_FACTORS.map Prod.fst →
    convert_length v u u = .ok (pyRound v 6) := by
  intro v u hu
  simp only [LENGTH_FACTORS, List.map] at hu
  fin_cases hu
  · have h : convert_length v "meter" "meter" = .ok (pyRound (v * 1 / 1) 6) := rfl
    rw [h, pyRound_mul_div_self v 1 (by norm_num)]
  · have h : convert_length v "kilometer" "kilometer"
        = .ok (pyRound (v * 1000 / 1000) 6) := rfl
    rw [h, pyRound_mul_div_self v 1000 (by norm_num)]
  · have h : convert_length v "centimeter" "centimeter"
        = .ok (pyRound (v * (1/100) / (1/100)) 6) := rfl
    rw [h, pyRound_mul_div_self v (1/100) (by norm_num)]
  · have h : convert_length v "millimeter" "millimeter"
        = .ok (pyRound (v * (1/1000) / (1/1000)) 6) := rfl
    rw [h, pyRound_mul_div_self v (1/1000) (by norm_num)]
  · have h : convert_length v "mile" "mile"
        = .ok (pyRound (v * (160934/100) / (160934/100)) 6) := rfl
    rw [h, pyRound_mul_div_self v (160934/100) (by norm_num)]
  · have h : convert_length v "yard" "yard"
        = .ok (pyRound (v * (9144/10000) / (9144/10000)) 6) := rfl
    rw [h, pyRound_mul_div_self v (9144/10000) (by norm_num)]
  · have h : convert_length v "foot" "foot"
        = .ok (pyRound (v * (3048/10000) / (3048/10000)) 6) := rfl
    rw [h, pyRound_mul_div_self v (3048/10000) (by norm_num)]
  · have h : convert_length v "inch" "inch"
        = .ok (pyRound (v * (254/10000) / (254/10000)) 6) := rfl
    rw [h, pyRound_mul_div_self v (254/10000) (by norm_num)]

/-- Witness for C5 at a concrete input: foot to foot is the rounded identity. -/
theorem C5_witness : convert_length 7 "foot" "foot" = .ok (pyRound 7 6) :=
  C5_same_unit_identity 7 "foot" (by decide)

/-- C6: a length or weight conversion whose lower-cased source (resp. target)
unit is not a key of the factor table fails with the ValueError naming that
side and listing the full supported set, which is the table keys joined in
declaration order; no result is returned. -/
theorem C6_invalid_unit_message :
    ∀ (v : ℚ) (s t : String),
    (LENGTH_FACTORS.lookup (pyLower s) = none →
      convert_length v s t
        = .error (.valueError (invalidSourceMsg (pyLower s) lengthSupported)))
    ∧ (∀ f, LENGTH_FACTORS.lookup (pyLower s) = some f →
        LENGTH_FACTORS.lookup (pyLower t) = none →
        convert_length v s t
          = .error (.valueError (invalidTargetMsg (pyLower t) lengthSupported)))
    ∧ (WEIGHT_FACTORS.lookup (pyLower s) = none →
      convert_weight v s t
        = .error (.valueError (invalidSourceMsg (pyLower s) weightSupported)))
    ∧ (∀ f, WEIGHT_FACTORS.lookup (pyLower s) = some f →
        WEIGHT_FACTORS.lookup (pyLower t) = none →
        convert_weight v s t
          = .error (.valueError (invalidTargetMsg (pyLower t) weightSupported)))
    ∧ lengthSupported = "meter, kilometer, centimeter, millimeter, mile, yard, foot, inch"
    ∧ weightSupported = "kilogram, gram, milligram, pound, ounce, ton" := by
  intro v s t
  refine ⟨?_, ?_, ?_, ?_, rfl, rfl⟩
  · intro h
    unfold convert_length convert_lengthNorm
    rw [h]
  · intro f hf ht
    unfold convert_length convert_lengthNorm
    rw [hf, ht]
  · intro h
    unfold convert_weight convert_weightNorm
    rw [h]
  · intro f hf ht
    unfold convert_weight convert_weightNorm
    rw [hf, ht]

/-- Witness for C6 at concrete inputs: an unknown source or target unit in a
length or weight conversion produces the side-naming ValueError. -/
theorem C6_witness :
    convert_length 1 "cubit" "meter"
      = .error (.valueError (invalidSourceMsg (pyLower "cubit") lengthSupported))
    ∧ convert_length 1 "meter" "cubit"
      = .error (.valueError (invalidTargetMsg (pyLower "cubit") lengthSupported))
    ∧ convert_weight 1 "stone" "kilogram"
      = .error (.valueError (invalidSourceMsg (pyLower "stone") weightSupported))
    ∧ convert_weight 1 "kilogram" "stone"
      = .error (.valueError (invalidTargetMsg (pyLower "stone") weightSupported)) :=
  ⟨(C6_invalid_unit_message 1 "cubit" "meter").1 rfl,
   (C6_invalid_unit_message 1 "meter" "cubit").2.1 1 rfl rfl,
   (C6_invalid_unit_message 1 "stone" "kilogram").2.2.1 rfl,
   (C6_invalid_unit_message 1 "kilogram" "stone").2.2.2.1 1 rfl rfl⟩

/-- C7: unit lookup is case-insensitive. Replacing either unit string by any
case variant (any string with the same lower-casing; upper-casing for
currency codes) leaves the outcome of convert_length, convert_weight,
convert_temperature and get_currency_rate unchanged, because each function
normalizes case before lookup. -/
theorem C7_case_insensitive :
    ∀ (v : ℚ) (s t s2 t2 : String) (p : String → ProviderOutcome) (st : CurrencyState),
    (pyLower s2 = pyLower s → pyLower t2 = pyLower t →
      convert_length v s t = convert_length v s2 t2
      ∧ convert_weight v s t = convert_weight v s2 t2
      ∧ convert_temperature v s t = convert_temperature v s2 t2)
    ∧ (pyUpper s2 = pyUpper s → pyUpper t2 = pyUpper t →
      get_currency_rate p v s t st = get_currency_rate p v s2 t2 st) := by
  intro v s t s2 t2 p st
  constructor
  · intro h1 h2
    refine ⟨?_, ?_, ?_⟩
    · unfold convert_length
      rw [h1, h2]
    · unfold convert_weight
      rw [h1, h2]
    · unfold convert_temperature
      rw [h1, h2]
  · intro h1 h2
    unfold get_currency_rate
    rw [h1, h2]

/-- Witness for C7 at concrete inputs: METER/KILOMETER behaves as
meter/kilometer across the three unit converters, and usd/eur as USD/EUR
for currency. -/
theorem C7_witness :
    (convert_length 1 "METER" "KILOMETER" = convert_length 1 "meter" "kilometer"
     ∧ convert_weight 1 "METER" "KILOMETER" = convert_weight 1 "meter" "kilometer"
     ∧ convert_temperature 1 "METER" "KILOMETER"
        = convert_temperature 1 "meter" "kilometer")
    ∧ get_currency_rate providerTimeoutOracle 1 "usd" "eur" emptyState
        = get_currency_rate providerTimeoutOracle 1 "USD" "EUR" emptyState :=
  ⟨(C7_case_insensitive 1 "METER" "KILOMETER" "meter" "kilometer"
      providerTimeoutOracle emptyState).1 rfl rfl,
   (C7_case_insensitive 1 "usd" "eur" "USD" "EUR"
      providerTimeoutOracle emptyState).2 rfl rfl⟩

/-- C8: the fixed-point conversions hold exactly: 1000 gram = 1 kilogram,
1000 meter = 1 kilometer, 0 celsius = 32 fahrenheit, 273.15 kelvin =
0 celsius, and -40 celsius = -40 fahrenheit. -/
theorem C8_fixed_points :
    convert_weight 1000 "gram" "kilogram" = .ok 1
    ∧ convert_length 1000 "meter" "kilometer" = .ok 1
    ∧ convert_temperature 0 "celsius" "fahrenheit" = .ok 32
    ∧ convert_temperature (27315/100) "kelvin" "celsius" = .ok 0
    ∧ convert_temperature (-40) "celsius" "fahrenheit" = .ok (-40) := by
  refine ⟨?_, ?_, ?_, ?_, ?_⟩
  · have h : convert_weight 1000 "gram" "kilogram"
        = .ok (pyRound (1000 * (1/1000) / 1) 6) := rfl
    rw [h, pyRound_eq_int (1000 * (1/1000) / 1) 1 (by norm_num) 6]
    norm_num
  · have h : convert_length 1000 "meter" "kilometer"
        = .ok (pyRound (1000 * 1 / 1000) 6) := rfl
    rw [h, pyRound_eq_int (1000 * 1 / 1000) 1 (by norm_num) 6]
    norm_num
  · have h : convert_temperature 0 "celsius" "fahrenheit"
        = .ok (pyRound (0 * 9 / 5 + 32) 2) := rfl
    rw [h, pyRound_eq_int (0 * 9 / 5 + 32) 32 (by norm_num) 2]
    norm_num
  · have h : convert_temperature (27315/100) "kelvin" "celsius"
        = .ok (pyRound (27315/100 - 27315/100) 2) := rfl
    rw [h, pyRound_eq_int (27315/100 - 27315/100) 0 (by norm_num) 2]
    norm_num
  · have h : convert_temperature (-40) "celsius" "fahrenheit"
        = .ok (pyRound (-40 * 9 / 5 + 32) 2) := rfl
    rw [h, pyRound_eq_int (-40 * 9 / 5 + 32) (-40) (by norm_num) 2]
    norm_num

/-- C9: the cache key is the plain concatenation FROM + "_" + TO of the
upper-cased codes, so the distinct ordered pairs (A_B, C) and (A, B_C)
share the key "A_B_C": after resolving (A_B, C) at rate 3 (one provider
call), resolving (A, B_C) — against a provider that would time out — hits
the cache, returns 10 * 3 rounded, and issues no provider call (the state,
call count included, is unchanged). -/
theorem C9_cache_key_collision :
    get_currency_rate providerAB 1 "A_B" "C" emptyState
      = (.ok 3, ⟨[("A_B_C", 3)], 1⟩)
    ∧ get_currency_rate providerTimeoutOracle 10 "A" "B_C" ⟨[("A_B_C", 3)], 1⟩
      = (.ok 30, ⟨[("A_B_C", 3)], 1⟩) := by
  constructor
  · have h : get_currency_rate providerAB 1 "A_B" "C" emptyState
        = (.ok (pyRound (1 * 3) 2), ⟨[("A_B_C", 3)], 1⟩) := rfl
    rw [h, pyRound_eq_int (1 * 3) 3 (by norm_num) 2]
    norm_num
  · have h : get_currency_rate providerTimeoutOracle 10 "A" "B_C" ⟨[("A_B_C", 3)], 1⟩
        = (.ok (pyRound (10 * 3) 2), ⟨[("A_B_C", 3)], 1⟩) := rfl
    rw [h, pyRound_eq_int (10 * 3) 30 (by norm_num) 2]
    norm_num

/-- C10: when both units are invalid, the failure is the one naming the
source side — the source unit is validated first — and the outcome does not
depend on the target unit at all: replacing the invalid target by any other
invalid target gives the identical result, for length, weight and
temperature conversions. -/
theorem C10_source_checked_first :
    ∀ (v : ℚ) (s t t2 : String),
    (LENGTH_FACTORS.lookup (pyLower s) = none → LENGTH_FACTORS.lookup (pyLower t) = none →
      convert_length v s t
        = .error (.valueError (invalidSourceMsg (pyLower s) lengthSupported))
      ∧ (LENGTH_FACTORS.lookup (pyLower t2) = none →
          convert_length v s t = convert_length v s t2))
    ∧ (WEIGHT_FACTORS.lookup (pyLower s) = none → WEIGHT_FACTORS.lookup (pyLower t) = none →
      convert_weight v s t
        = .error (.valueError (invalidSourceMsg (pyLower s) weightSupported))
      ∧ (WEIGHT_FACTORS.lookup (pyLower t2) = none →
          convert_weight v s t = convert_weight v s t2))
    ∧ (valid_units.contains (pyLower s) = false → valid_units.contains (pyLower t) = false →
      convert_temperature v s t
        = .error (.valueError (invalidSourceMsg (pyLower s) tempSupported))
      ∧ (valid_units.contains (pyLower t2) = false →
          convert_temperature v s t = convert_temperature v s t2)) := by
  intro v s t t2
  refine ⟨?_, ?_, ?_⟩
  · intro hs ht
    have hmain : convert_length v s t
        = .error (.valueError (invalidSourceMsg (pyLower s) lengthSupported)) := by
      unfold convert_length convert_lengthNorm
      rw [hs]
    refine ⟨hmain, ?_⟩
    intro ht2
    rw [hmain]
    unfold convert_length convert_lengthNorm
    rw [hs]
  · intro hs ht
    have hmain : convert_weight v s t
        = .error (.valueError (invalidSourceMsg (pyLower s) weightSupported)) := by
      unfold convert_weight convert_weightNorm
      rw [hs]
    refine ⟨hmain, ?_⟩
    intro ht2
    rw [hmain]
    unfold convert_weight convert_weightNorm
    rw [hs]
  · intro hs ht
    have hmain : convert_temperature v s t
        = .error (.valueError (invalidSourceMsg (pyLower s) tempSupported)) := by
      unfold convert_temperature convert_temperatureNorm
      rw [hs]
      simp
    refine ⟨hmain, ?_⟩
    intro ht2
    rw [hmain]
    unfold convert_temperature convert_temperatureNorm
    rw [hs]
    simp

/-- Witness for C10 at concrete inputs: with both sides invalid, the error
names the source unit, and swapping one invalid target for another changes
nothing. -/
theorem C10_witness :
    convert_length 1 "cubit" "parsec"
      = .error (.valueError (invalidSourceMsg (pyLower "cubit") lengthSupported))
    ∧ convert_length 1 "cubit" "parsec" = convert_length 1 "cubit" "smoot"
    ∧ convert_weight 1 "stone" "slug"
      = .error (.valueError (invalidSourceMsg (pyLower "stone") weightSupported))
    ∧ convert_temperature 1 "rankine" "reaumur"
      = .error (.valueError (invalidSourceMsg (pyLower "rankine") tempSupported)) :=
  ⟨((C10_source_checked_first 1 "cubit" "parsec" "smoot").1 rfl rfl).1,
   ((C10_source_checked_first 1 "cubit" "parsec" "smoot").1 rfl rfl).2 rfl,
   ((C10_source_checked_first 1 "stone" "slug" "x").2.1 rfl rfl).1,
   ((C10_source_checked_first 1 "rankine" "reaumur" "x").2.2 rfl rfl).1⟩

end UnitConverter
